import Mathlib

/-!
Verification development for the polcn/analyzer4 repository.

The repository ships a React frontend (`frontend/src`), AWS CDK
infrastructure, and documentation; the Python analysis core
(`backend/src/core`: ReferenceDataStore, RecordIngestor, DetectionEngine,
ResultAggregator, OutputWriter) is referenced by the build scripts and the
README but its sources are not present.  The core is therefore modelled
from the specification document, while the frontend components
(`AnalysisResults.js`, `services/api.js`) are embedded directly from their
JavaScript sources.
-/

namespace Analyzer4

/-- Modelled from the spec: the three declared schema kinds (FileKind, §3).
The backend core that consumes them is not in the repository sources. -/
inductive FileKind where
  | SecurityAuditLog
  | ChangeHeader
  | ChangeItem
deriving DecidableEq, Repr

/-- The caller-supplied file-type tags, as offered by the frontend
(`FileUpload.js` option values SM20 / CDHDR / CDPOS) and the README API
reference.  An unrecognized tag yields `none`. -/
def parseFileKind : String → Option FileKind
  | "SM20" => some FileKind.SecurityAuditLog
  | "CDHDR" => some FileKind.ChangeHeader
  | "CDPOS" => some FileKind.ChangeItem
  | _ => none

/-- Modelled from the spec: RawField, an ordered mapping from column name
to text value as read from the source row (§3). -/
def RawField := List (String × String)

/-- Modelled from the spec: the SecurityAuditLog variant of
NormalizedRecord (§3). -/
structure AuditRecord where
  actor : String
  executedFunctionCode : String
  eventCode : String
  timestamp : String
  auxiliaryFields : List (String × String)
deriving DecidableEq, Repr

/-- Modelled from the spec: the ChangeHeader variant of
NormalizedRecord (§3). -/
structure HeaderRecord where
  actor : String
  objectClass : String
  objectId : String
  executedFunctionCode : String
  timestamp : String
deriving DecidableEq, Repr

/-- Modelled from the spec: the ChangeItem variant of
NormalizedRecord (§3). -/
structure ItemRecord where
  objectId : String
  structuralIdentifier : String
  changeIndicator : String
  fieldName : String
  oldValue : String
  newValue : String
deriving DecidableEq, Repr

/-- Modelled from the spec: NormalizedRecord as a closed tagged variant;
every record belongs to exactly one FileKind and carries only that kind's
fields (§3, §9). -/
inductive NormalizedRecord where
  | audit (r : AuditRecord)
  | header (r : HeaderRecord)
  | item (r : ItemRecord)
deriving DecidableEq, Repr

/-- Modelled from the spec: ReferenceDataStore holding the two immutable
code-to-description tables (§3, §4.1), kept as loaded entry lists. -/
structure ReferenceDataStore where
  structuralTable : List (String × String)
  functionTable : List (String × String)
deriving DecidableEq, Repr

/-- Modelled from the spec: table lookup with duplicate keys resolved
last-write-wins (§4.1); a missing key yields the empty description. -/
def lookupIn (table : List (String × String)) (key : String) : String :=
  match (table.reverse.find? (fun p => p.1 = key)) with
  | some p => p.2
  | none => ""

/-- Modelled from the spec: `lookupStructural(id) -> description|empty`
(§4.1). -/
def ReferenceDataStore.lookupStructural (s : ReferenceDataStore) (id : String) : String :=
  lookupIn s.structuralTable id

/-- Modelled from the spec: `lookupFunction(code) -> description|empty`
(§4.1). -/
def ReferenceDataStore.lookupFunction (s : ReferenceDataStore) (code : String) : String :=
  lookupIn s.functionTable code

/-- Modelled from the spec: the externally supplied configuration code
sets driving the detection predicates (§4.3, §9); the composite catch-all
pattern is an opaque configured predicate over the record. -/
structure DetectionConfig where
  debugEventCodes : List String
  highRiskFunctionCodes : List String
  highRiskStructuralIds : List String
  tableMaintIndicators : List String
  otherPattern : NormalizedRecord → Bool

/-- Modelled from the spec: FlagOutcome, one boolean per flag of the fixed
closed flag set (§3, §4.3). -/
structure FlagOutcome where
  debugFlag : Bool
  tableMaintFlag : Bool
  highRiskFunctionFlag : Bool
  highRiskStructuralFlag : Bool
  otherFlag : Bool
deriving DecidableEq, Repr

/-- The closed set of flag names (§3, §4.3). -/
inductive FlagName where
  | debug
  | tableMaint
  | highRiskFunction
  | highRiskStructural
  | other
deriving DecidableEq, Repr

/-- Projects one flag out of a FlagOutcome by name. -/
def FlagOutcome.get (f : FlagOutcome) : FlagName → Bool
  | FlagName.debug => f.debugFlag
  | FlagName.tableMaint => f.tableMaintFlag
  | FlagName.highRiskFunction => f.highRiskFunctionFlag
  | FlagName.highRiskStructural => f.highRiskStructuralFlag
  | FlagName.other => f.otherFlag

/-- True when at least one flag of the outcome is set. -/
def FlagOutcome.anyFlag (f : FlagOutcome) : Bool :=
  f.debugFlag || f.tableMaintFlag || f.highRiskFunctionFlag ||
    f.highRiskStructuralFlag || f.otherFlag

/-- Modelled from the spec: EnrichedRecord = NormalizedRecord + joined
descriptions + FlagOutcome (§3). -/
structure EnrichedRecord where
  record : NormalizedRecord
  structuralDescription : String
  functionDescription : String
  flags : FlagOutcome
deriving DecidableEq, Repr

/-- Modelled from the spec: `DetectionEngine.evaluate` (§4.3) — a pure
function of the record and the reference store.  Per-kind flags: DebugFlag
only on SecurityAuditLog, TableMaintFlag and HighRiskStructuralFlag only
on ChangeItem, HighRiskFunctionFlag on SecurityAuditLog and ChangeHeader;
OtherFlag is the configured composite pattern.  Descriptions are joined by
reference lookups on the fields the record actually carries. -/
def evaluate (cfg : DetectionConfig) (refs : ReferenceDataStore) :
    NormalizedRecord → EnrichedRecord
  | NormalizedRecord.audit a =>
    { record := NormalizedRecord.audit a
      structuralDescription := ""
      functionDescription := refs.lookupFunction a.executedFunctionCode
      flags :=
        { debugFlag := cfg.debugEventCodes.contains a.eventCode
          tableMaintFlag := false
          highRiskFunctionFlag := cfg.highRiskFunctionCodes.contains a.executedFunctionCode
          highRiskStructuralFlag := false
          otherFlag := cfg.otherPattern (NormalizedRecord.audit a) } }
  | NormalizedRecord.header h =>
    { record := NormalizedRecord.header h
      structuralDescription := ""
      functionDescription := refs.lookupFunction h.executedFunctionCode
      flags :=
        { debugFlag := false
          tableMaintFlag := false
          highRiskFunctionFlag := cfg.highRiskFunctionCodes.contains h.executedFunctionCode
          highRiskStructuralFlag := false
          otherFlag := cfg.otherPattern (NormalizedRecord.header h) } }
  | NormalizedRecord.item i =>
    { record := NormalizedRecord.item i
      structuralDescription := refs.lookupStructural i.structuralIdentifier
      functionDescription := ""
      flags :=
        { debugFlag := false
          tableMaintFlag := cfg.tableMaintIndicators.contains i.changeIndicator
          highRiskFunctionFlag := false
          highRiskStructuralFlag := cfg.highRiskStructuralIds.contains i.structuralIdentifier
          otherFlag := cfg.otherPattern (NormalizedRecord.item i) } }

/-- Modelled from the spec: per-row skip reasons recorded by the
RecordIngestor (§4.2). -/
inductive SkipReason where
  | missingRequiredField
  | unparsableTimestamp
  | unparsableValue
deriving DecidableEq, Repr

/-- Modelled from the spec: the explicit two-variant per-row outcome of
ingestion (§4.2, §9). -/
inductive RowOutcome where
  | ok (r : NormalizedRecord)
  | skip (reason : SkipReason)
deriving DecidableEq, Repr

/-- Modelled from the spec: the required columns per FileKind, named after
the NormalizedRecord fields enumerated in §3. -/
def requiredColumns : FileKind → List String
  | FileKind.SecurityAuditLog => ["actor", "executedFunctionCode", "eventCode", "timestamp"]
  | FileKind.ChangeHeader =>
      ["actor", "objectClass", "objectId", "executedFunctionCode", "timestamp"]
  | FileKind.ChangeItem =>
      ["objectId", "structuralIdentifier", "changeIndicator", "fieldName",
       "oldValue", "newValue"]

/-- Modelled from the spec: the insert/update/delete change-indicator
codes a ChangeItem row is coerced against (§3, §4.2). -/
def changeIndicatorCodes : List String := ["I", "U", "D"]

/-- Fetches a required column from a raw row: present and non-empty
(§4.2), otherwise `none`. -/
def getRequired (raw : RawField) (c : String) : Option String :=
  match List.lookup c raw with
  | some v => if v = "" then none else some v
  | none => none

/-- The non-required columns of a raw row, kept as auxiliary fields of a
SecurityAuditLog record (§3). -/
def auxOf (raw : RawField) : List (String × String) :=
  raw.filter (fun p => !((requiredColumns FileKind.SecurityAuditLog).contains p.1))

/-- Modelled from the spec: per-row parsing of the RecordIngestor (§4.2).
`tsValid` is the externally specified timestamp-coercion check (its format
is not given by the spec).  A missing or empty required column yields
`missingRequiredField`; a failing timestamp coercion yields
`unparsableTimestamp`; a ChangeItem change indicator outside the
insert/update/delete codes yields `unparsableValue`. -/
def parseRow (tsValid : String → Bool) (kind : FileKind) (raw : RawField) : RowOutcome :=
  match kind with
  | FileKind.SecurityAuditLog =>
    match getRequired raw "actor", getRequired raw "executedFunctionCode",
        getRequired raw "eventCode", getRequired raw "timestamp" with
    | some actor, some func, some ev, some ts =>
      if tsValid ts then
        RowOutcome.ok (NormalizedRecord.audit ⟨actor, func, ev, ts, auxOf raw⟩)
      else
        RowOutcome.skip SkipReason.unparsableTimestamp
    | _, _, _, _ => RowOutcome.skip SkipReason.missingRequiredField
  | FileKind.ChangeHeader =>
    match getRequired raw "actor", getRequired raw "objectClass",
        getRequired raw "objectId", getRequired raw "executedFunctionCode",
        getRequired raw "timestamp" with
    | some actor, some oc, some oid, some func, some ts =>
      if tsValid ts then
        RowOutcome.ok (NormalizedRecord.header ⟨actor, oc, oid, func, ts⟩)
      else
        RowOutcome.skip SkipReason.unparsableTimestamp
    | _, _, _, _, _ => RowOutcome.skip SkipReason.missingRequiredField
  | FileKind.ChangeItem =>
    match getRequired raw "objectId", getRequired raw "structuralIdentifier",
        getRequired raw "changeIndicator", getRequired raw "fieldName",
        getRequired raw "oldValue", getRequired raw "newValue" with
    | some oid, some sid, some ci, some fn, some ov, some nv =>
      if changeIndicatorCodes.contains ci then
        RowOutcome.ok (NormalizedRecord.item ⟨oid, sid, ci, fn, ov, nv⟩)
      else
        RowOutcome.skip SkipReason.unparsableValue
    | _, _, _, _, _, _ => RowOutcome.skip SkipReason.missingRequiredField

/-- Modelled from the spec: the fatal error taxonomy (§7); row-level skips
are not errors. -/
inductive RunError where
  | schemaError
  | referenceLoadError
  | writeError
deriving DecidableEq, Repr

/-- One element of the pipelined stream handed to the ResultAggregator:
an enriched record or a skip reason (§2, §4.4). -/
inductive PipeItem where
  | enriched (e : EnrichedRecord)
  | skipped (reason : SkipReason)
deriving DecidableEq, Repr

/-- Modelled from the spec: per-flag running counters of the
ResultAggregator (§4.4), one per name of the closed flag set. -/
structure FlagCounts where
  debugCount : Nat
  tableMaintCount : Nat
  highRiskFunctionCount : Nat
  highRiskStructuralCount : Nat
  otherCount : Nat
deriving DecidableEq, Repr

/-- Projects one per-flag counter by flag name. -/
def FlagCounts.get (c : FlagCounts) : FlagName → Nat
  | FlagName.debug => c.debugCount
  | FlagName.tableMaint => c.tableMaintCount
  | FlagName.highRiskFunction => c.highRiskFunctionCount
  | FlagName.highRiskStructural => c.highRiskStructuralCount
  | FlagName.other => c.otherCount

/-- All-zero per-flag counters. -/
def FlagCounts.zero : FlagCounts := ⟨0, 0, 0, 0, 0⟩

/-- Adds one record's flag outcome into the per-flag counters. -/
def FlagCounts.bump (c : FlagCounts) (f : FlagOutcome) : FlagCounts :=
  { debugCount := c.debugCount + (if f.debugFlag then 1 else 0)
    tableMaintCount := c.tableMaintCount + (if f.tableMaintFlag then 1 else 0)
    highRiskFunctionCount := c.highRiskFunctionCount + (if f.highRiskFunctionFlag then 1 else 0)
    highRiskStructuralCount :=
      c.highRiskStructuralCount + (if f.highRiskStructuralFlag then 1 else 0)
    otherCount := c.otherCount + (if f.otherFlag then 1 else 0) }

/-- Pointwise sum of per-flag counters (shard combination, §5). -/
def FlagCounts.add (c d : FlagCounts) : FlagCounts :=
  ⟨c.debugCount + d.debugCount, c.tableMaintCount + d.tableMaintCount,
   c.highRiskFunctionCount + d.highRiskFunctionCount,
   c.highRiskStructuralCount + d.highRiskStructuralCount,
   c.otherCount + d.otherCount⟩

/-- Modelled from the spec: the running state of the ResultAggregator
(§4.4). -/
structure AggState where
  totalRecords : Nat
  flaggedRecords : Nat
  skippedRecords : Nat
  counts : FlagCounts
deriving DecidableEq, Repr

/-- The aggregator's starting state: all counters zero. -/
def initAgg : AggState := ⟨0, 0, 0, FlagCounts.zero⟩

/-- Modelled from the spec: `accumulate(EnrichedRecord)` plus the skip
stream (§4.4).  An enriched record bumps totalRecords, bumps
flaggedRecords exactly when some flag is true, and bumps per-flag
counters; a skipped row bumps only skippedRecords. -/
def accumulate (s : AggState) : PipeItem → AggState
  | PipeItem.enriched e =>
    { totalRecords := s.totalRecords + 1
      flaggedRecords := s.flaggedRecords + (if e.flags.anyFlag then 1 else 0)
      skippedRecords := s.skippedRecords
      counts := s.counts.bump e.flags }
  | PipeItem.skipped _ =>
    { s with skippedRecords := s.skippedRecords + 1 }

/-- Folds the aggregator over the whole item stream. -/
def aggregate (items : List PipeItem) : AggState :=
  items.foldl accumulate initAgg

/-- Pointwise sum of two aggregator states (shard combination, §5). -/
def AggState.add (s t : AggState) : AggState :=
  ⟨s.totalRecords + t.totalRecords, s.flaggedRecords + t.flaggedRecords,
   s.skippedRecords + t.skippedRecords, s.counts.add t.counts⟩

/-- Modelled from the spec: AnalysisSummary (§3). -/
structure AnalysisSummary where
  totalRecords : Nat
  flaggedRecords : Nat
  skippedRecords : Nat
  flagCounts : FlagCounts
deriving DecidableEq, Repr

/-- Modelled from the spec: `finalize() -> AnalysisSummary` (§4.4). -/
def finalize (s : AggState) : AnalysisSummary :=
  ⟨s.totalRecords, s.flaggedRecords, s.skippedRecords, s.counts⟩

/-- Serializes the flag columns appended by the OutputWriter (§4.5). -/
def flagColumns (f : FlagOutcome) : List String :=
  [(if f.debugFlag then "true" else "false"),
   (if f.tableMaintFlag then "true" else "false"),
   (if f.highRiskFunctionFlag then "true" else "false"),
   (if f.highRiskStructuralFlag then "true" else "false"),
   (if f.otherFlag then "true" else "false")]

/-- Modelled from the spec: one output row of the OutputWriter — the
original columns verbatim, then the appended flag and description columns
(§4.5, §6). -/
def outputRow (original : List String) (e : EnrichedRecord) : List String :=
  original ++ flagColumns e.flags ++ [e.structuralDescription, e.functionDescription]

/-- Processes one raw row: parse, then evaluate on success; yields the
stream item for the aggregator and the output row when one exists. -/
def processRow (cfg : DetectionConfig) (refs : ReferenceDataStore)
    (tsValid : String → Bool) (kind : FileKind) (header : List String)
    (row : List String) : PipeItem × Option (List String) :=
  match parseRow tsValid kind (header.zip row) with
  | RowOutcome.ok r =>
    let e := evaluate cfg refs r
    (PipeItem.enriched e, some (outputRow row e))
  | RowOutcome.skip reason => (PipeItem.skipped reason, none)

/-- The item stream of a run over the given raw rows. -/
def runItems (cfg : DetectionConfig) (refs : ReferenceDataStore)
    (tsValid : String → Bool) (kind : FileKind) (header : List String)
    (rows : List (List String)) : List PipeItem :=
  rows.map (fun row => (processRow cfg refs tsValid kind header row).1)

/-- The completed run's artifacts: the enriched output rows and the
summary (§6). -/
structure RunOutput where
  rows : List (List String)
  summary : AnalysisSummary
deriving DecidableEq, Repr

/-- Modelled from the spec: the whole single-pass pipeline (§2, §4, §7).
An unrecognized FileKind tag, or a header lacking a required column, fails
the run with SchemaError before any per-row processing; otherwise every
raw row is parsed, evaluated and aggregated in one pass. -/
def runPipeline (cfg : DetectionConfig) (refs : ReferenceDataStore)
    (tsValid : String → Bool) (kindTag : String) (header : List String)
    (rows : List (List String)) : Except RunError RunOutput :=
  match parseFileKind kindTag with
  | none => Except.error RunError.schemaError
  | some kind =>
    if (requiredColumns kind).all header.contains then
      let processed := rows.map (fun row => processRow cfg refs tsValid kind header row)
      Except.ok ⟨processed.filterMap Prod.snd, finalize (aggregate (processed.map Prod.fst))⟩
    else
      Except.error RunError.schemaError

/-! Frontend embedding, from `frontend/src/components/AnalysisResults.js`
and `frontend/src/services/api.js`. -/

/-- A JavaScript value of the fragment the frontend manipulates:
undefined, a number (modelled as a rational), a string, or an object given
as its key/value fields. -/
inductive JsValue where
  | undef
  | num (q : Rat)
  | str (s : String)
  | obj (fields : List (String × JsValue))

/-- JS property access `v.k`: the field's value on an object that has it,
undefined otherwise. -/
def getField : JsValue → String → JsValue
  | JsValue.obj fields, k => (List.lookup k fields).getD JsValue.undef
  | _, _ => JsValue.undef

/-- JS truthiness on the modelled fragment: undefined, 0 and the empty
string are falsy; every object is truthy. -/
def truthy : JsValue → Bool
  | JsValue.undef => false
  | JsValue.num q => q != 0
  | JsValue.str s => s != ""
  | JsValue.obj _ => true

/-- The JS `a || b` operator on the modelled fragment. -/
def jsOr (v fallback : JsValue) : JsValue :=
  if truthy v then v else fallback

/-- From `AnalysisResults.js` line 5: `const summary = results.summary ||
\x7b\x7d`. -/
def summaryOf (results : JsValue) : JsValue :=
  jsOr (getField results "summary") (JsValue.obj [])

/-- From `AnalysisResults.js` line 26: the displayed Total Records value
`summary.total_records || 0`. -/
def displayedTotalRecords (results : JsValue) : JsValue :=
  jsOr (getField (summaryOf results) "total_records") (JsValue.num 0)

/-- From `AnalysisResults.js` line 30: the displayed Flagged Records value
`summary.flagged_records || 0`. -/
def displayedFlaggedRecords (results : JsValue) : JsValue :=
  jsOr (getField (summaryOf results) "flagged_records") (JsValue.num 0)

/-- The displayed Detection Rate: either the literal 0 branch, a computed
percentage, or NaN when the division ran with a non-numeric operand. -/
inductive RateDisplay where
  | zero
  | ratio (q : Rat)
  | notANumber
deriving DecidableEq, Repr

/-- JS numeric comparison `v > 0` for the value shapes the results API
delivers in these fields (numbers, or absent): a positive number passes,
undefined and objects compare false. -/
def numGtZero : JsValue → Bool
  | JsValue.num q => decide (0 < q)
  | _ => false

/-- From `AnalysisResults.js` lines 35-37: `summary.total_records > 0 ?
((summary.flagged_records / summary.total_records) * 100).toFixed(2) :
0`.  When the guard passes but `flagged_records` is not a number, the
division in JS produces NaN. -/
def detectionRate (results : JsValue) : RateDisplay :=
  let summary := summaryOf results
  if numGtZero (getField summary "total_records") then
    match getField summary "flagged_records", getField summary "total_records" with
    | JsValue.num f, JsValue.num t => RateDisplay.ratio (f / t * 100)
    | _, _ => RateDisplay.notANumber
  else
    RateDisplay.zero

/-- The flag-name transform of `AnalysisResults.js` line 49:
`flag.replace(/_/g, ' ')`. -/
def underscoresToSpaces (s : String) : String :=
  String.mk (s.toList.map (fun c => if c = '_' then ' ' else c))

/-- From `AnalysisResults.js` lines 43-55: the Detection Flags card is
rendered only when `summary.flag_counts` is truthy, listing
`Object.entries(summary.flag_counts)` with underscores in flag names
replaced by spaces; `none` means the card is not rendered. -/
def renderedFlagCounts (results : JsValue) : Option (List (String × JsValue)) :=
  let fc := getField (summaryOf results) "flag_counts"
  if truthy fc then
    match fc with
    | JsValue.obj fields => some (fields.map (fun p => (underscoresToSpaces p.1, p.2)))
    | _ => some []
  else
    none

/-- From `services/api.js`: the error object a failed axios request passes
to the catch block; `response` is the (possibly absent) HTTP response
object carrying `data`. -/
structure AxiosError where
  response : JsValue

/-- The optional server-supplied error value
`error.response?.data?.error`. -/
def serverError (e : AxiosError) : JsValue :=
  getField (getField e.response "data") "error"

/-- From `api.js` lines 35 and 45: the message of the thrown Error,
`error.response?.data?.error || fallback`. -/
def failureMessage (e : AxiosError) (fallback : String) : JsValue :=
  jsOr (serverError e) (JsValue.str fallback)

/-- The outcome of one axios request: the response data, or the error
handed to the catch block. -/
inductive ApiResult where
  | success (data : JsValue)
  | failure (e : AxiosError)

/-- From `api.js` lines 6-37: `analyzeFile` performs the upload-URL
request, the S3 upload, and the analysis trigger in order inside one try;
the first failure lands in the shared catch block, which throws a new
Error carrying only `error.response?.data?.error || 'Failed to analyze
file'`; on success the analysisId object is returned. -/
def analyzeFile (upload s3put trigger : ApiResult) : Except JsValue JsValue :=
  match upload with
  | ApiResult.failure e => Except.error (failureMessage e "Failed to analyze file")
  | ApiResult.success updata =>
    match s3put with
    | ApiResult.failure e => Except.error (failureMessage e "Failed to analyze file")
    | ApiResult.success _ =>
      match trigger with
      | ApiResult.failure e => Except.error (failureMessage e "Failed to analyze file")
      | ApiResult.success _ =>
        Except.ok (JsValue.obj [("analysisId", getField updata "analysisId")])

/-- From `api.js` lines 39-47: `getResults` returns the response data, or
throws a new Error carrying only `error.response?.data?.error || 'Failed
to get results'`. -/
def getResults (res : ApiResult) : Except JsValue JsValue :=
  match res with
  | ApiResult.failure e => Except.error (failureMessage e "Failed to get results")
  | ApiResult.success d => Except.ok d

/-! Counting characterization of the aggregator fold. -/

/-- True on stream items carrying an enriched record. -/
def isEnriched : PipeItem → Bool
  | PipeItem.enriched _ => true
  | PipeItem.skipped _ => false

/-- True on stream items carrying a skip reason. -/
def isSkipped : PipeItem → Bool
  | PipeItem.enriched _ => false
  | PipeItem.skipped _ => true

/-- True on enriched items with at least one flag set. -/
def isFlaggedItem : PipeItem → Bool
  | PipeItem.enriched e => e.flags.anyFlag
  | PipeItem.skipped _ => false

/-- True on enriched items with every flag false. -/
def isUnflaggedItem : PipeItem → Bool
  | PipeItem.enriched e => !(e.flags.anyFlag)
  | PipeItem.skipped _ => false

/-- True on enriched items whose named flag is set. -/
def hasFlag (fn : FlagName) : PipeItem → Bool
  | PipeItem.enriched e => e.flags.get fn
  | PipeItem.skipped _ => false

theorem bump_get (c : FlagCounts) (f : FlagOutcome) (fn : FlagName) :
    (c.bump f).get fn = c.get fn + (if f.get fn then 1 else 0) := by
  cases fn <;> rfl

theorem foldl_accumulate_totalRecords (items : List PipeItem) (s : AggState) :
    (items.foldl accumulate s).totalRecords = s.totalRecords + items.countP isEnriched := by
  induction items generalizing s with
  | nil => simp
  | cons i rest ih =>
    cases i with
    | enriched e =>
      simp only [List.foldl_cons, ih, accumulate, List.countP_cons, isEnriched]
      simp
      omega
    | skipped r =>
      simp only [List.foldl_cons, ih, accumulate, List.countP_cons, isEnriched]
      simp

theorem foldl_accumulate_flaggedRecords (items : List PipeItem) (s : AggState) :
    (items.foldl accumulate s).flaggedRecords =
      s.flaggedRecords + items.countP isFlaggedItem := by
  induction items generalizing s with
  | nil => simp
  | cons i rest ih =>
    cases i with
    | enriched e =>
      simp only [List.foldl_cons, ih, accumulate, List.countP_cons, isFlaggedItem]
      omega
    | skipped r =>
      simp only [List.foldl_cons, ih, accumulate, List.countP_cons, isFlaggedItem]
      simp

theorem foldl_accumulate_skippedRecords (items : List PipeItem) (s : AggState) :
    (items.foldl accumulate s).skippedRecords =
      s.skippedRecords + items.countP isSkipped := by
  induction items generalizing s with
  | nil => simp
  | cons i rest ih =>
    cases i with
    | enriched e =>
      simp only [List.foldl_cons, ih, accumulate, List.countP_cons, isSkipped]
      simp
    | skipped r =>
      simp only [List.foldl_cons, ih, accumulate, List.countP_cons, isSkipped]
      simp
      omega

theorem foldl_accumulate_countsGet (fn : FlagName) (items : List PipeItem) (s : AggState) :
    ((items.foldl accumulate s).counts).get fn =
      s.counts.get fn + items.countP (hasFlag fn) := by
  induction items generalizing s with
  | nil => simp
  | cons i rest ih =>
    cases i with
    | enriched e =>
      simp only [List.foldl_cons, ih, accumulate, List.countP_cons, hasFlag, bump_get]
      omega
    | skipped r =>
      simp only [List.foldl_cons, ih, accumulate, List.countP_cons, hasFlag]
      simp

theorem aggregate_totalRecords (items : List PipeItem) :
    (aggregate items).totalRecords = items.countP isEnriched := by
  simp [aggregate, foldl_accumulate_totalRecords, initAgg]

theorem aggregate_flaggedRecords (items : List PipeItem) :
    (aggregate items).flaggedRecords = items.countP isFlaggedItem := by
  simp [aggregate, foldl_accumulate_flaggedRecords, initAgg]

theorem aggregate_skippedRecords (items : List PipeItem) :
    (aggregate items).skippedRecords = items.countP isSkipped := by
  simp [aggregate, foldl_accumulate_skippedRecords, initAgg]

theorem aggregate_countsGet (fn : FlagName) (items : List PipeItem) :
    ((aggregate items).counts).get fn = items.countP (hasFlag fn) := by
  simp [aggregate, foldl_accumulate_countsGet, initAgg, FlagCounts.zero]
  cases fn <;> rfl

theorem countP_enriched_split (l : List PipeItem) :
    l.countP isEnriched = l.countP isFlaggedItem + l.countP isUnflaggedItem := by
  induction l with
  | nil => simp
  | cons i rest ih =>
    cases i with
    | enriched e =>
      have h1 : isEnriched (PipeItem.enriched e) = true := rfl
      have h2 : isFlaggedItem (PipeItem.enriched e) = e.flags.anyFlag := rfl
      have h3 : isUnflaggedItem (PipeItem.enriched e) = !(e.flags.anyFlag) := rfl
      rw [List.countP_cons, List.countP_cons, List.countP_cons, h1, h2, h3, ih]
      cases e.flags.anyFlag <;> simp <;> omega
    | skipped r =>
      simp only [List.countP_cons, isEnriched, isFlaggedItem, isUnflaggedItem, ih]
      simp

theorem countP_enriched_add_skipped (l : List PipeItem) :
    l.countP isEnriched + l.countP isSkipped = l.length := by
  induction l with
  | nil => simp
  | cons i rest ih =>
    cases i <;> simp [List.countP_cons, isEnriched, isSkipped] <;> omega

/-- The output rows a run produces (one per successfully parsed row). -/
def outRows (cfg : DetectionConfig) (refs : ReferenceDataStore)
    (tsValid : String → Bool) (kind : FileKind) (header : List String)
    (rows : List (List String)) : List (List String) :=
  rows.filterMap (fun row => (processRow cfg refs tsValid kind header row).2)

theorem runPipeline_ok_eq (cfg : DetectionConfig) (refs : ReferenceDataStore)
    (tsValid : String → Bool) (kindTag : String) (kind : FileKind)
    (header : List String) (rows : List (List String))
    (hkind : parseFileKind kindTag = some kind)
    (hcols : (requiredColumns kind).all header.contains = true) :
    runPipeline cfg refs tsValid kindTag header rows =
      Except.ok ⟨outRows cfg refs tsValid kind header rows,
        finalize (aggregate (runItems cfg refs tsValid kind header rows))⟩ := by
  unfold runPipeline
  rw [hkind]
  simp only [hcols, if_true, List.map_map, List.filterMap_map]
  rfl

theorem runPipeline_schema_err (cfg : DetectionConfig) (refs : ReferenceDataStore)
    (tsValid : String → Bool) (kindTag : String) (kind : FileKind)
    (header : List String) (rows : List (List String))
    (hkind : parseFileKind kindTag = some kind)
    (hcols : (requiredColumns kind).all header.contains = false) :
    runPipeline cfg refs tsValid kindTag header rows =
      Except.error RunError.schemaError := by
  unfold runPipeline
  rw [hkind]
  simp [hcols]

theorem runPipeline_summary (cfg : DetectionConfig) (refs : ReferenceDataStore)
    (tsValid : String → Bool) (kindTag : String) (kind : FileKind)
    (header : List String) (rows : List (List String)) (out : RunOutput)
    (hkind : parseFileKind kindTag = some kind)
    (hrun : runPipeline cfg refs tsValid kindTag header rows = Except.ok out) :
    out.summary = finalize (aggregate (runItems cfg refs tsValid kind header rows)) := by
  cases hcols : (requiredColumns kind).all header.contains with
  | false =>
    rw [runPipeline_schema_err cfg refs tsValid kindTag kind header rows hkind hcols] at hrun
    exact absurd hrun (by simp)
  | true =>
    rw [runPipeline_ok_eq cfg refs tsValid kindTag kind header rows hkind hcols] at hrun
    cases hrun
    rfl

theorem runItems_length (cfg : DetectionConfig) (refs : ReferenceDataStore)
    (tsValid : String → Bool) (kind : FileKind) (header : List String)
    (rows : List (List String)) :
    (runItems cfg refs tsValid kind header rows).length = rows.length := by
  simp [runItems]

/-- C1: for every run over any input file and reference tables, the
finalized summary satisfies totalRecords = flaggedRecords +
unflaggedRecords, where unflaggedRecords counts the successfully parsed
records with all flags false; skippedRecords is counted separately
(totalRecords + skippedRecords covers exactly the raw rows, so skips are
never inside totalRecords). -/
theorem C1_conservation (cfg : DetectionConfig) (refs : ReferenceDataStore)
    (tsValid : String → Bool) (kindTag : String) (kind : FileKind)
    (header : List String) (rows : List (List String)) (out : RunOutput)
    (hkind : parseFileKind kindTag = some kind)
    (hrun : runPipeline cfg refs tsValid kindTag header rows = Except.ok out) :
    out.summary.totalRecords =
        out.summary.flaggedRecords +
          (runItems cfg refs tsValid kind header rows).countP isUnflaggedItem ∧
      out.summary.totalRecords + out.summary.skippedRecords = rows.length := by
  rw [runPipeline_summary cfg refs tsValid kindTag kind header rows out hkind hrun]
  constructor
  · show (aggregate _).totalRecords = (aggregate _).flaggedRecords + _
    rw [aggregate_totalRecords, aggregate_flaggedRecords, countP_enriched_split]
  · show (aggregate _).totalRecords + (aggregate _).skippedRecords = _
    rw [aggregate_totalRecords, aggregate_skippedRecords, countP_enriched_add_skipped,
      runItems_length]

/-- C2: the aggregator increments flaggedRecords exactly once per enriched
record with at least one true flag and never on other items, and in every
finalized summary each per-flag count and flaggedRecords are bounded by
totalRecords. -/
theorem C2_flag_bounds :
    (∀ (s : AggState) (e : EnrichedRecord),
        (accumulate s (PipeItem.enriched e)).flaggedRecords =
          s.flaggedRecords + (if e.flags.anyFlag then 1 else 0)) ∧
      (∀ (s : AggState) (reason : SkipReason),
        (accumulate s (PipeItem.skipped reason)).flaggedRecords = s.flaggedRecords) ∧
      ∀ (cfg : DetectionConfig) (refs : ReferenceDataStore) (tsValid : String → Bool)
        (kindTag : String) (kind : FileKind) (header : List String)
        (rows : List (List String)) (out : RunOutput),
        parseFileKind kindTag = some kind →
        runPipeline cfg refs tsValid kindTag header rows = Except.ok out →
        (∀ fn : FlagName, out.summary.flagCounts.get fn ≤ out.summary.totalRecords) ∧
          out.summary.flaggedRecords ≤ out.summary.totalRecords := by
  refine ⟨fun s e => rfl, fun s reason => rfl, ?_⟩
  intro cfg refs tsValid kindTag kind header rows out hkind hrun
  rw [runPipeline_summary cfg refs tsValid kindTag kind header rows out hkind hrun]
  constructor
  · intro fn
    show ((aggregate _).counts).get fn ≤ (aggregate _).totalRecords
    rw [aggregate_countsGet, aggregate_totalRecords]
    refine List.countP_mono_left ?_
    intro x _ hx
    cases x with
    | enriched e => rfl
    | skipped r => simp [hasFlag] at hx
  · show (aggregate _).flaggedRecords ≤ (aggregate _).totalRecords
    rw [aggregate_flaggedRecords, aggregate_totalRecords]
    refine List.countP_mono_left ?_
    intro x _ hx
    cases x with
    | enriched e => rfl
    | skipped r => simp [isFlaggedItem] at hx

/-- C3: for every successfully processed input row, the corresponding
output row carries every original column value verbatim, in the original
order, as an exact prefix; the enrichment and flag columns are appended
strictly after all original columns. -/
theorem C3_column_preservation (cfg : DetectionConfig) (refs : ReferenceDataStore)
    (tsValid : String → Bool) (kind : FileKind) (header : List String)
    (row : List String) (item : PipeItem) (orow : List String)
    (h : processRow cfg refs tsValid kind header row = (item, some orow)) :
    ∃ e : EnrichedRecord, item = PipeItem.enriched e ∧
      orow.take row.length = row ∧
      orow.drop row.length =
        flagColumns e.flags ++ [e.structuralDescription, e.functionDescription] ∧
      ∀ i, i < row.length → orow[i]? = row[i]? := by
  unfold processRow at h
  cases hp : parseRow tsValid kind (header.zip row) with
  | skip reason =>
    rw [hp] at h
    simp at h
  | ok r =>
    rw [hp] at h
    simp only [Prod.mk.injEq, Option.some.injEq] at h
    obtain ⟨hi, ho⟩ := h
    have horow : orow = row ++ (flagColumns (evaluate cfg refs r).flags ++
        [(evaluate cfg refs r).structuralDescription,
         (evaluate cfg refs r).functionDescription]) := by
      rw [← ho]
      unfold outputRow
      rw [List.append_assoc]
    refine ⟨evaluate cfg refs r, hi.symm, ?_, ?_, ?_⟩
    · rw [horow, List.take_left]
    · rw [horow, List.drop_left]
    · intro i hilt
      have := List.getElem?_take_of_lt (l := orow) (n := row.length) (m := i) hilt
      rw [horow, List.take_left] at this
      rw [horow]
      exact this.symm

/-- C4: a record whose structuralIdentifier or executedFunctionCode has no
entry in the reference tables gets an empty description (never an error),
and the DetectionEngine still produces a fully evaluated FlagOutcome —
indeed the flags do not depend on the reference tables at all. -/
theorem C4_missing_reference (cfg : DetectionConfig) (refs : ReferenceDataStore) :
    (∀ key : String, (∀ p ∈ refs.structuralTable, p.1 ≠ key) →
        refs.lookupStructural key = "") ∧
      (∀ code : String, (∀ p ∈ refs.functionTable, p.1 ≠ code) →
        refs.lookupFunction code = "") ∧
      (∀ i : ItemRecord, (∀ p ∈ refs.structuralTable, p.1 ≠ i.structuralIdentifier) →
        (evaluate cfg refs (NormalizedRecord.item i)).structuralDescription = "") ∧
      (∀ a : AuditRecord, (∀ p ∈ refs.functionTable, p.1 ≠ a.executedFunctionCode) →
        (evaluate cfg refs (NormalizedRecord.audit a)).functionDescription = "") ∧
      ∀ (refs2 : ReferenceDataStore) (r : NormalizedRecord),
        (evaluate cfg refs r).flags = (evaluate cfg refs2 r).flags := by
  have hlook : ∀ (table : List (String × String)) (key : String),
      (∀ p ∈ table, p.1 ≠ key) → lookupIn table key = "" := by
    intro table key hmiss
    unfold lookupIn
    have : table.reverse.find? (fun p => p.1 = key) = none := by
      rw [List.find?_eq_none]
      intro p hp
      simp only [decide_eq_true_eq]
      exact hmiss p (List.mem_reverse.mp hp)
    rw [this]
  refine ⟨fun key h => hlook _ key h, fun code h => hlook _ code h, ?_, ?_, ?_⟩
  · intro i h
    show refs.lookupStructural i.structuralIdentifier = ""
    exact hlook _ _ h
  · intro a h
    show refs.lookupFunction a.executedFunctionCode = ""
    exact hlook _ _ h
  · intro refs2 r
    cases r <;> rfl

/-- C6: a SecurityAuditLog record whose eventCode is a configured debug
event and which matches no other configured risk signal gets DebugFlag
true and every other flag false; DebugFlag is false on every ChangeHeader
and ChangeItem record. -/
theorem C6_debug_flag :
    (∀ (cfg : DetectionConfig) (refs : ReferenceDataStore) (a : AuditRecord),
        cfg.debugEventCodes.contains a.eventCode = true →
        cfg.highRiskFunctionCodes.contains a.executedFunctionCode = false →
        cfg.otherPattern (NormalizedRecord.audit a) = false →
        (evaluate cfg refs (NormalizedRecord.audit a)).flags =
          ⟨true, false, false, false, false⟩) ∧
      (∀ (cfg : DetectionConfig) (refs : ReferenceDataStore) (h : HeaderRecord),
        (evaluate cfg refs (NormalizedRecord.header h)).flags.debugFlag = false) ∧
      ∀ (cfg : DetectionConfig) (refs : ReferenceDataStore) (i : ItemRecord),
        (evaluate cfg refs (NormalizedRecord.item i)).flags.debugFlag = false := by
  refine ⟨?_, fun cfg refs h => rfl, fun cfg refs i => rfl⟩
  intro cfg refs a hdebug hfunc hother
  show FlagOutcome.mk _ _ _ _ _ = _
  rw [hdebug, hfunc, hother]

/-- C5: an unrecognized FileKind tag, or a header lacking a required
column, fails the whole run with SchemaError for every possible row list —
so the failure happens before any per-row processing, no output artifact
exists, and it is never downgraded to a per-row SkipReason. -/
theorem C5_schema_error (cfg : DetectionConfig) (refs : ReferenceDataStore)
    (tsValid : String → Bool) (kindTag : String) (header : List String)
    (rows : List (List String)) :
    (parseFileKind kindTag = none →
        runPipeline cfg refs tsValid kindTag header rows =
          Except.error RunError.schemaError) ∧
      ∀ kind : FileKind, parseFileKind kindTag = some kind →
        (requiredColumns kind).all header.contains = false →
        runPipeline cfg refs tsValid kindTag header rows =
          Except.error RunError.schemaError := by
  constructor
  · intro h
    unfold runPipeline
    rw [h]
  · intro kind hkind hcols
    exact runPipeline_schema_err cfg refs tsValid kindTag kind header rows hkind hcols

theorem FlagCounts.eq_of_get (c d : FlagCounts) (h : ∀ fn, c.get fn = d.get fn) :
    c = d := by
  cases c with
  | mk a1 a2 a3 a4 a5 =>
    cases d with
    | mk b1 b2 b3 b4 b5 =>
      have h1 := h FlagName.debug
      have h2 := h FlagName.tableMaint
      have h3 := h FlagName.highRiskFunction
      have h4 := h FlagName.highRiskStructural
      have h5 := h FlagName.other
      simp only [FlagCounts.get] at h1 h2 h3 h4 h5
      rw [h1, h2, h3, h4, h5]

/-- C7: the pipeline is deterministic — two runs over the same input and
reference tables give the same result; moreover, as the spec's purity
statement demands, the aggregator's counters combine across shards by
simple addition, and the finalized summary is invariant under any
reordering of the processed stream. -/
theorem C7_determinism :
    (∀ (cfg : DetectionConfig) (refs : ReferenceDataStore) (tsValid : String → Bool)
        (kindTag : String) (header : List String) (rows : List (List String))
        (r1 r2 : Except RunError RunOutput),
        runPipeline cfg refs tsValid kindTag header rows = r1 →
        runPipeline cfg refs tsValid kindTag header rows = r2 → r1 = r2) ∧
      (∀ l1 l2 : List PipeItem,
        (aggregate (l1 ++ l2)).totalRecords =
            (aggregate l1).totalRecords + (aggregate l2).totalRecords ∧
          (aggregate (l1 ++ l2)).flaggedRecords =
            (aggregate l1).flaggedRecords + (aggregate l2).flaggedRecords ∧
          (aggregate (l1 ++ l2)).skippedRecords =
            (aggregate l1).skippedRecords + (aggregate l2).skippedRecords ∧
          ∀ fn : FlagName,
            ((aggregate (l1 ++ l2)).counts).get fn =
              ((aggregate l1).counts).get fn + ((aggregate l2).counts).get fn) ∧
      ∀ l1 l2 : List PipeItem, l1.Perm l2 →
        finalize (aggregate l1) = finalize (aggregate l2) := by
  refine ⟨?_, ?_, ?_⟩
  · intro cfg refs tsValid kindTag header rows r1 r2 h1 h2
    rw [← h1, ← h2]
  · intro l1 l2
    refine ⟨?_, ?_, ?_, ?_⟩
    · rw [aggregate_totalRecords, aggregate_totalRecords, aggregate_totalRecords,
        List.countP_append]
    · rw [aggregate_flaggedRecords, aggregate_flaggedRecords, aggregate_flaggedRecords,
        List.countP_append]
    · rw [aggregate_skippedRecords, aggregate_skippedRecords, aggregate_skippedRecords,
        List.countP_append]
    · intro fn
      rw [aggregate_countsGet, aggregate_countsGet, aggregate_countsGet,
        List.countP_append]
  · intro l1 l2 hperm
    have hc : ∀ p : PipeItem → Bool, l1.countP p = l2.countP p :=
      fun p => hperm.countP_eq p
    have h1 : (aggregate l1).totalRecords = (aggregate l2).totalRecords := by
      rw [aggregate_totalRecords, aggregate_totalRecords, hc]
    have h2 : (aggregate l1).flaggedRecords = (aggregate l2).flaggedRecords := by
      rw [aggregate_flaggedRecords, aggregate_flaggedRecords, hc]
    have h3 : (aggregate l1).skippedRecords = (aggregate l2).skippedRecords := by
      rw [aggregate_skippedRecords, aggregate_skippedRecords, hc]
    have h4 : (aggregate l1).counts = (aggregate l2).counts := by
      refine FlagCounts.eq_of_get _ _ ?_
      intro fn
      rw [aggregate_countsGet, aggregate_countsGet, hc]
    unfold finalize
    rw [h1, h2, h3, h4]

/-- C8 counterexample: a results object whose summary carries exactly the
spec's field names totalRecords, flaggedRecords, skippedRecords,
flagCounts renders as all zeros in `AnalysisResults.js` — the component
reads `summary.total_records`, `summary.flagged_records` and
`summary.flag_counts` (snake_case) and finds none of the camelCase fields,
so the claimed camelCase shape is not the shape the results consumer
reads. -/
theorem C8_camel_case_renders_zero :
    displayedTotalRecords (JsValue.obj [("summary", JsValue.obj
        [("totalRecords", JsValue.num 5), ("flaggedRecords", JsValue.num 2),
         ("skippedRecords", JsValue.num 1),
         ("flagCounts", JsValue.obj [("debug_activity", JsValue.num 2)])])]) =
        JsValue.num 0 ∧
      displayedFlaggedRecords (JsValue.obj [("summary", JsValue.obj
        [("totalRecords", JsValue.num 5), ("flaggedRecords", JsValue.num 2),
         ("skippedRecords", JsValue.num 1),
         ("flagCounts", JsValue.obj [("debug_activity", JsValue.num 2)])])]) =
        JsValue.num 0 ∧
      renderedFlagCounts (JsValue.obj [("summary", JsValue.obj
        [("totalRecords", JsValue.num 5), ("flaggedRecords", JsValue.num 2),
         ("skippedRecords", JsValue.num 1),
         ("flagCounts", JsValue.obj [("debug_activity", JsValue.num 2)])])]) =
        none ∧
      detectionRate (JsValue.obj [("summary", JsValue.obj
        [("totalRecords", JsValue.num 5), ("flaggedRecords", JsValue.num 2),
         ("skippedRecords", JsValue.num 1),
         ("flagCounts", JsValue.obj [("debug_activity", JsValue.num 2)])])]) =
        RateDisplay.zero :=
  ⟨rfl, rfl, rfl, rfl⟩

/-- C8 (amended): the shape the results consumer reads is snake_case — the
rendering depends only on the summary fields total_records,
flagged_records and flag_counts (in particular on no skipped-records
field), and a snake_case summary is rendered with exactly its delivered
values. -/
theorem C8_snake_case_shape :
    (∀ r1 r2 : JsValue,
        getField (summaryOf r1) "total_records" = getField (summaryOf r2) "total_records" →
        getField (summaryOf r1) "flagged_records" = getField (summaryOf r2) "flagged_records" →
        getField (summaryOf r1) "flag_counts" = getField (summaryOf r2) "flag_counts" →
        displayedTotalRecords r1 = displayedTotalRecords r2 ∧
          displayedFlaggedRecords r1 = displayedFlaggedRecords r2 ∧
          detectionRate r1 = detectionRate r2 ∧
          renderedFlagCounts r1 = renderedFlagCounts r2) ∧
      ∀ (t f : Rat) (fc rest : List (String × JsValue)),
        (t ≠ 0 →
          displayedTotalRecords (JsValue.obj (("summary", JsValue.obj
              [("total_records", JsValue.num t), ("flagged_records", JsValue.num f),
               ("flag_counts", JsValue.obj fc)]) :: rest)) = JsValue.num t) ∧
          (f ≠ 0 →
            displayedFlaggedRecords (JsValue.obj (("summary", JsValue.obj
                [("total_records", JsValue.num t), ("flagged_records", JsValue.num f),
                 ("flag_counts", JsValue.obj fc)]) :: rest)) = JsValue.num f) ∧
          (0 < t →
            detectionRate (JsValue.obj (("summary", JsValue.obj
                [("total_records", JsValue.num t), ("flagged_records", JsValue.num f),
                 ("flag_counts", JsValue.obj fc)]) :: rest)) =
              RateDisplay.ratio (f / t * 100)) ∧
          renderedFlagCounts (JsValue.obj (("summary", JsValue.obj
              [("total_records", JsValue.num t), ("flagged_records", JsValue.num f),
               ("flag_counts", JsValue.obj fc)]) :: rest)) =
            some (fc.map (fun p => (underscoresToSpaces p.1, p.2))) := by
  constructor
  · intro r1 r2 h1 h2 h3
    refine ⟨?_, ?_, ?_, ?_⟩
    · unfold displayedTotalRecords
      rw [h1]
    · unfold displayedFlaggedRecords
      rw [h2]
    · simp only [detectionRate]
      rw [h1, h2]
    · simp only [renderedFlagCounts]
      rw [h3]
  · intro t f fc rest
    have hsum : summaryOf (JsValue.obj (("summary", JsValue.obj
        [("total_records", JsValue.num t), ("flagged_records", JsValue.num f),
         ("flag_counts", JsValue.obj fc)]) :: rest)) = JsValue.obj
        [("total_records", JsValue.num t), ("flagged_records", JsValue.num f),
         ("flag_counts", JsValue.obj fc)] := by
      unfold summaryOf jsOr getField
      simp [List.lookup, truthy]
    refine ⟨?_, ?_, ?_, ?_⟩
    · intro ht
      unfold displayedTotalRecords
      rw [hsum]
      simp only [getField, List.lookup]
      simp [jsOr, truthy, ht]
    · intro hf
      unfold displayedFlaggedRecords
      rw [hsum]
      simp only [getField, List.lookup]
      simp [jsOr, truthy, hf]
    · intro ht
      unfold detectionRate
      rw [hsum]
      simp only [getField, List.lookup]
      simp [numGtZero, ht]
    · unfold renderedFlagCounts
      rw [hsum]
      simp only [getField, List.lookup]
      simp [truthy]

/-- C9 counterexample: a results object whose summary has total_records =
5 but no flagged_records field passes the `total_records > 0` guard, so
`AnalysisResults.js` performs `summary.flagged_records /
summary.total_records` with an undefined numerator and renders NaN —
refuting the claim that rendering never performs a division on
undefined. -/
theorem C9_nan_division :
    detectionRate (JsValue.obj [("summary", JsValue.obj
        [("total_records", JsValue.num 5)])]) = RateDisplay.notANumber ∧
      RateDisplay.notANumber ≠ RateDisplay.zero :=
  ⟨rfl, by simp⟩

/-- C9 (amended): the detection-rate divisor is guarded — a computed ratio
implies total_records is a positive number, and the display is the literal
0 whenever the summary is absent or total_records is missing or zero; the
numerator, however, is unguarded: with a positive total_records and a
missing flagged_records the division still runs on undefined and renders
NaN. -/
theorem C9_division_guard :
    (∀ (results : JsValue) (q : Rat), detectionRate results = RateDisplay.ratio q →
        ∃ t : Rat, getField (summaryOf results) "total_records" = JsValue.num t ∧
          0 < t) ∧
      (∀ results : JsValue, getField results "summary" = JsValue.undef →
        detectionRate results = RateDisplay.zero ∧
          displayedTotalRecords results = JsValue.num 0 ∧
          displayedFlaggedRecords results = JsValue.num 0) ∧
      (∀ results : JsValue, getField (summaryOf results) "total_records" = JsValue.undef →
        detectionRate results = RateDisplay.zero) ∧
      (∀ results : JsValue, getField (summaryOf results) "total_records" = JsValue.num 0 →
        detectionRate results = RateDisplay.zero) ∧
      ∀ (results : JsValue) (t : Rat),
        getField (summaryOf results) "total_records" = JsValue.num t → 0 < t →
        getField (summaryOf results) "flagged_records" = JsValue.undef →
        detectionRate results = RateDisplay.notANumber := by
  refine ⟨?_, ?_, ?_, ?_, ?_⟩
  · intro results q h
    simp only [detectionRate] at h
    cases hg : numGtZero (getField (summaryOf results) "total_records") with
    | false =>
      rw [hg] at h
      simp at h
    | true =>
      cases ht : getField (summaryOf results) "total_records" with
      | num t =>
        refine ⟨t, rfl, ?_⟩
        rw [ht] at hg
        simpa [numGtZero] using hg
      | undef => rw [ht] at hg; simp [numGtZero] at hg
      | str s => rw [ht] at hg; simp [numGtZero] at hg
      | obj fields => rw [ht] at hg; simp [numGtZero] at hg
  · intro results h
    have hsum : summaryOf results = JsValue.obj [] := by
      simp only [summaryOf, jsOr]
      rw [h]
      rfl
    refine ⟨?_, ?_, ?_⟩
    · simp only [detectionRate]
      rw [hsum]
      rfl
    · simp only [displayedTotalRecords]
      rw [hsum]
      rfl
    · simp only [displayedFlaggedRecords]
      rw [hsum]
      rfl
  · intro results h
    simp only [detectionRate]
    rw [h]
    rfl
  · intro results h
    simp only [detectionRate]
    rw [h]
    rfl
  · intro results t ht htpos hf
    simp only [detectionRate]
    rw [ht, hf]
    simp [numGtZero, htpos]

/-- C10 counterexample: a failed request whose response body carries the
server-supplied error string "" makes `getResults` throw the fixed
fallback message instead of that string, because `error.response?.data?.
error || 'Failed to get results'` treats the empty string as falsy —
refuting the claim as stated. -/
theorem C10_empty_error_string :
    serverError ⟨JsValue.obj [("data", JsValue.obj
        [("error", JsValue.str "")])]⟩ = JsValue.str "" ∧
      getResults (ApiResult.failure ⟨JsValue.obj [("data", JsValue.obj
        [("error", JsValue.str "")])]⟩) =
        Except.error (JsValue.str "Failed to get results") ∧
      "Failed to get results" ≠ "" :=
  ⟨rfl, rfl, by simp⟩

/-- C10 (amended): every failure in analyzeFile or getResults throws an
Error whose message is the server-supplied error string when the response
body contains a non-empty one, and otherwise (absent or empty) the fixed
fallback message; the error value thrown is always such a message, never
the raw transport error object. -/
theorem C10_error_messages :
    (∀ (e : AxiosError) (msg fallback : String),
        serverError e = JsValue.str msg → msg ≠ "" →
        failureMessage e fallback = JsValue.str msg) ∧
      (∀ (e : AxiosError) (fallback : String),
        serverError e = JsValue.undef ∨ serverError e = JsValue.str "" →
        failureMessage e fallback = JsValue.str fallback) ∧
      (∀ (u s t : ApiResult) (v : JsValue), analyzeFile u s t = Except.error v →
        ∃ e : AxiosError, v = failureMessage e "Failed to analyze file") ∧
      ∀ (r : ApiResult) (v : JsValue), getResults r = Except.error v →
        ∃ e : AxiosError, r = ApiResult.failure e ∧
          v = failureMessage e "Failed to get results" := by
  refine ⟨?_, ?_, ?_, ?_⟩
  · intro e msg fallback h hne
    unfold failureMessage jsOr
    rw [h]
    simp [truthy, hne]
  · intro e fallback h
    unfold failureMessage jsOr
    cases h with
    | inl h => rw [h]; rfl
    | inr h => rw [h]; rfl
  · intro u s t v h
    cases u with
    | failure e =>
      refine ⟨e, ?_⟩
      simp only [analyzeFile] at h
      cases h
      rfl
    | success updata =>
      cases s with
      | failure e =>
        refine ⟨e, ?_⟩
        simp only [analyzeFile] at h
        cases h
        rfl
      | success sdata =>
        cases t with
        | failure e =>
          refine ⟨e, ?_⟩
          simp only [analyzeFile] at h
          cases h
          rfl
        | success tdata =>
          simp [analyzeFile] at h
  · intro r v h
    cases r with
    | failure e =>
      refine ⟨e, rfl, ?_⟩
      simp only [getResults] at h
      cases h
      rfl
    | success d => simp [getResults] at h

/-! Concrete witness fixtures. -/

/-- A small concrete detection configuration for witnesses. -/
def cfgW : DetectionConfig := ⟨["DBG"], ["SU01"], ["USR02"], ["U"], fun _ => false⟩

/-- A small concrete reference store for witnesses. -/
def refsW : ReferenceDataStore :=
  ⟨[("USR02", "User master password table")], [("SU01", "User maintenance")]⟩

/-- A trivially accepting timestamp check for witnesses. -/
def tsW : String → Bool := fun _ => true

/-- A concrete SecurityAuditLog header for witnesses. -/
def headerW : List String := ["actor", "executedFunctionCode", "eventCode", "timestamp"]

/-- A concrete well-formed raw row for witnesses. -/
def rowW : List String := ["alice", "SU01", "DBG", "t1"]

/-- A concrete raw input: one parsable row, one row missing its required
fields. -/
def rowsW : List (List String) := [["alice", "SU01", "DBG", "t1"], ["bob"]]

/-- The enriched record the witness row evaluates to. -/
def eW : EnrichedRecord :=
  ⟨NormalizedRecord.audit ⟨"alice", "SU01", "DBG", "t1", []⟩, "", "User maintenance",
   ⟨true, false, true, false, false⟩⟩

/-- The output row written for the witness row. -/
def orowW : List String :=
  ["alice", "SU01", "DBG", "t1", "true", "false", "true", "false", "false", "",
   "User maintenance"]

/-- The run output of the witness input. -/
def outW : RunOutput := ⟨[orowW], ⟨1, 1, 1, ⟨1, 0, 1, 0, 0⟩⟩⟩

/-- Concrete instance of C1_conservation on a two-row input with one
skip. -/
theorem C1_conservation_witness :
    outW.summary.totalRecords =
        outW.summary.flaggedRecords +
          (runItems cfgW refsW tsW FileKind.SecurityAuditLog headerW rowsW).countP
            isUnflaggedItem ∧
      outW.summary.totalRecords + outW.summary.skippedRecords = rowsW.length :=
  C1_conservation cfgW refsW tsW "SM20" FileKind.SecurityAuditLog headerW rowsW outW rfl rfl

/-- Concrete instance of C2_flag_bounds on the witness run. -/
theorem C2_flag_bounds_witness :
    outW.summary.flagCounts.get FlagName.debug ≤ outW.summary.totalRecords ∧
      outW.summary.flaggedRecords ≤ outW.summary.totalRecords :=
  ⟨(C2_flag_bounds.2.2 cfgW refsW tsW "SM20" FileKind.SecurityAuditLog headerW rowsW outW
      rfl rfl).1 FlagName.debug,
   (C2_flag_bounds.2.2 cfgW refsW tsW "SM20" FileKind.SecurityAuditLog headerW rowsW outW
      rfl rfl).2⟩

/-- Concrete instance of C3_column_preservation on the witness row. -/
theorem C3_column_preservation_witness : orowW.take rowW.length = rowW := by
  obtain ⟨e, hi, htake, hdrop, hget⟩ :=
    C3_column_preservation cfgW refsW tsW FileKind.SecurityAuditLog headerW rowW
      (PipeItem.enriched eW) orowW rfl
  exact htake

/-- Concrete instance of C4_missing_reference on keys absent from the
witness reference store. -/
theorem C4_missing_reference_witness :
    refsW.lookupStructural "ZZZZ" = "" ∧
      (evaluate cfgW refsW (NormalizedRecord.item
        ⟨"obj1", "NOPE", "U", "f", "x", "y"⟩)).structuralDescription = "" :=
  ⟨(C4_missing_reference cfgW refsW).1 "ZZZZ" (by decide),
   (C4_missing_reference cfgW refsW).2.2.1 ⟨"obj1", "NOPE", "U", "f", "x", "y"⟩ (by decide)⟩

/-- Concrete instance of C5_schema_error: an unknown file-type tag, and a
CDPOS header missing required columns. -/
theorem C5_schema_error_witness :
    runPipeline cfgW refsW tsW "XLSX" headerW rowsW =
        Except.error RunError.schemaError ∧
      runPipeline cfgW refsW tsW "CDPOS" ["objectId"] rowsW =
        Except.error RunError.schemaError :=
  ⟨(C5_schema_error cfgW refsW tsW "XLSX" headerW rowsW).1 rfl,
   (C5_schema_error cfgW refsW tsW "CDPOS" ["objectId"] rowsW).2 FileKind.ChangeItem rfl rfl⟩

/-- Concrete instance of C6_debug_flag: a debug event with a non-high-risk
function code. -/
theorem C6_debug_flag_witness :
    (evaluate cfgW refsW (NormalizedRecord.audit
        ⟨"alice", "FB03", "DBG", "t1", []⟩)).flags =
      ⟨true, false, false, false, false⟩ :=
  C6_debug_flag.1 cfgW refsW ⟨"alice", "FB03", "DBG", "t1", []⟩ rfl rfl rfl

/-- Concrete instance of C7_determinism: swapping two stream items leaves
the finalized summary unchanged. -/
theorem C7_determinism_witness :
    finalize (aggregate [PipeItem.skipped SkipReason.missingRequiredField,
        PipeItem.enriched eW]) =
      finalize (aggregate [PipeItem.enriched eW,
        PipeItem.skipped SkipReason.missingRequiredField]) :=
  C7_determinism.2.2 _ _
    (List.Perm.swap (PipeItem.enriched eW) (PipeItem.skipped SkipReason.missingRequiredField)
      [])

/-- A snake_case results object as the deployed backend delivers it. -/
def wSnake : JsValue :=
  JsValue.obj [("summary", JsValue.obj
    [("total_records", JsValue.num 5), ("flagged_records", JsValue.num 2),
     ("flag_counts", JsValue.obj [("debug_flag", JsValue.num 2)])])]

/-- The same results object with an extra skipped_records field. -/
def wSnakeSkip : JsValue :=
  JsValue.obj [("summary", JsValue.obj
    [("total_records", JsValue.num 5), ("flagged_records", JsValue.num 2),
     ("flag_counts", JsValue.obj [("debug_flag", JsValue.num 2)]),
     ("skipped_records", JsValue.num 3)])]

/-- Concrete instance of C8_snake_case_shape: the render ignores a
skipped_records field and displays the delivered total. -/
theorem C8_snake_case_shape_witness :
    (displayedTotalRecords wSnakeSkip = displayedTotalRecords wSnake ∧
        displayedFlaggedRecords wSnakeSkip = displayedFlaggedRecords wSnake ∧
        detectionRate wSnakeSkip = detectionRate wSnake ∧
        renderedFlagCounts wSnakeSkip = renderedFlagCounts wSnake) ∧
      displayedTotalRecords wSnake = JsValue.num 5 :=
  ⟨C8_snake_case_shape.1 wSnakeSkip wSnake rfl rfl rfl,
   (C8_snake_case_shape.2 5 2 [("debug_flag", JsValue.num 2)] []).1 (by norm_num)⟩

/-- Concrete instance of C9_division_guard: a zero total displays 0, a
positive total with no flagged_records renders NaN. -/
theorem C9_division_guard_witness :
    detectionRate (JsValue.obj [("summary", JsValue.obj
        [("total_records", JsValue.num 0), ("flagged_records", JsValue.num 2)])]) =
        RateDisplay.zero ∧
      detectionRate (JsValue.obj [("summary", JsValue.obj
        [("total_records", JsValue.num 7)])]) = RateDisplay.notANumber :=
  ⟨C9_division_guard.2.2.2.1 _ rfl,
   C9_division_guard.2.2.2.2 _ 7 rfl (by norm_num) rfl⟩

/-- Concrete instance of C10_error_messages: a non-empty server error
string is thrown verbatim, an absent one falls back to the fixed
message. -/
theorem C10_error_messages_witness :
    failureMessage ⟨JsValue.obj [("data", JsValue.obj [("error", JsValue.str "boom")])]⟩
        "Failed to analyze file" = JsValue.str "boom" ∧
      failureMessage ⟨JsValue.undef⟩ "Failed to get results" =
        JsValue.str "Failed to get results" :=
  ⟨C10_error_messages.1 _ "boom" "Failed to analyze file" rfl (by decide),
   C10_error_messages.2.1 _ "Failed to get results" (Or.inl rfl)⟩

end Analyzer4
